import Mathlib

/-!
Verification development for src/pynetdicom/service_class.py: the service-class
dispatch core of a DICOM SCP.  Python values are embedded shallowly: datasets
become association lists of (keyword, value) pairs, DIMSE primitives become
attribute maps, the user handler becomes an explicit list of yielded values,
and the external collaborators (codec, events, association, dimse) become
function parameters or outcome enumerations.  Machine integers are plain Int
with explicit wraparound arithmetic where the source performs it.
-/

namespace Pynetdicom

/-- A Python value carried in a DICOM dataset element or primitive attribute.
Covers the shapes the service-class module manipulates: None, ints (status
codes, counters, message ids), strings (UIDs, comments), encoded byte streams,
lists (FailedSOPInstanceUIDList), and sequences of items (WaveformSequence). -/
inductive Value where
  | none
  | int (n : Int)
  | str (s : String)
  | bytes (b : List Nat)
  | list (l : List Value)
  | items (l : List (List (String × Value)))

/-- A pydicom Dataset: an association list keyword to value.  Keywords are
unique in a real Dataset; lemmas that need this state it as a hypothesis. -/
abbrev DS := List (String × Value)

/-- A handler-returned status object, as discriminated by the isinstance
checks in validate_status and the C-ECHO SCP: a Dataset, an int, or anything
else.  The exc constructor stands for the (Exception, traceback) sentinel the
_wrap_handler generator yields when the user generator raises. -/
inductive PyStatus where
  | exc
  | ds (d : DS)
  | int (n : Int)
  | other

/-- The second slot of a handler yield: None, a Dataset, or any other object
(carrying only its truthiness, which is all the source consults). -/
inductive PyVal where
  | none
  | ds (d : DS)
  | other (truthy : Bool)

/-- Python truthiness of a yield payload: None is falsy, a Dataset is truthy
iff it has elements, other objects carry their own truthiness. -/
def pyTruthy : PyVal → Bool
  | PyVal.none => false
  | PyVal.ds d => !d.isEmpty
  | PyVal.other b => b

/-- True when the wrapped-handler yield is the exception sentinel. -/
def isExcStatus : PyStatus → Bool
  | PyStatus.exc => true
  | _ => false

/-- A DIMSE response primitive, embedded as an attribute map.  setattr
prepends and getattr takes the first match, so later writes shadow earlier
ones exactly as attribute assignment does. -/
structure Rsp where
  attrs : List (String × Value)

/-- Python getattr on an embedded primitive: unset attributes read as None,
matching the None defaults of the dimse primitive classes. -/
def getattrV (r : Rsp) (k : String) : Value :=
  match r.attrs.lookup k with
  | some v => v
  | Option.none => Value.none

/-- Python setattr on an embedded primitive. -/
def setattrV (r : Rsp) (k : String) (v : Value) : Rsp :=
  ⟨(k, v) :: r.attrs⟩

/-- Projection of an attribute to an Int, when it holds one. -/
def attrInt (r : Rsp) (k : String) : Option Int :=
  match getattrV r k with
  | Value.int n => some n
  | _ => Option.none

/-- Projection of an attribute to a byte stream, when it holds one. -/
def attrBytes (r : Rsp) (k : String) : Option (List Nat) :=
  match getattrV r k with
  | Value.bytes b => some b
  | _ => Option.none

/-- Modelled from the spec: the attribute names of the C-FIND response
primitive (the dimse_primitives module is not under src).  From spec section 3
the response primitive carries message ids, affected SOP class UID, an
identifier, a status, and optional status-detail fields. -/
def C_FIND_KEYWORDS : List String :=
  ["MessageID", "MessageIDBeingRespondedTo", "AffectedSOPClassUID", "Priority",
   "Identifier", "Status", "ErrorComment", "OffendingElement"]

/-- Modelled from the spec: attribute names of the C-GET response primitive,
which adds the four sub-operation counters (spec section 3). -/
def C_GET_KEYWORDS : List String :=
  C_FIND_KEYWORDS ++
  ["NumberOfRemainingSuboperations", "NumberOfFailedSuboperations",
   "NumberOfWarningSuboperations", "NumberOfCompletedSuboperations"]

/-- Modelled from the spec: attribute names of the C-MOVE response primitive
(the C-GET set plus the move destination, spec section 3). -/
def C_MOVE_KEYWORDS : List String :=
  C_GET_KEYWORDS ++ ["MoveDestination"]

/-- Modelled from the spec: attribute names of the C-ECHO response primitive
(spec sections 3 and 4.F). -/
def C_ECHO_KEYWORDS : List String :=
  ["MessageID", "MessageIDBeingRespondedTo", "AffectedSOPClassUID", "Status"]

/-- The five DIMSE status categories (pynetdicom._globals STATUS_*). -/
inductive StatusCategory where
  | success
  | warning
  | failure
  | cancel
  | pending
  deriving DecidableEq

/-- Modelled from the spec: the Verification service status registry
(pynetdicom.status is not under src; contents from spec section 4.A and the
status tables in the source docstrings). -/
def VERIFICATION_SERVICE_CLASS_STATUS (c : Int) : Option StatusCategory :=
  if c = 0x0000 then some StatusCategory.success
  else if c = 0x0122 ∨ c = 0x0210 ∨ c = 0x0211 ∨ c = 0x0212 then
    some StatusCategory.failure
  else Option.none

/-- Modelled from the spec: the Storage service status registry (spec
section 3 status entries and the C-STORE docstring status table). -/
def STORAGE_SERVICE_CLASS_STATUS (c : Int) : Option StatusCategory :=
  if c = 0x0000 then some StatusCategory.success
  else if c = 0xB000 ∨ c = 0xB006 ∨ c = 0xB007 then some StatusCategory.warning
  else if c = 0x0117 ∨ c = 0x0122 ∨ c = 0x0124 ∨ c = 0x0210 ∨ c = 0x0211 ∨
          c = 0x0212 then some StatusCategory.failure
  else if (0xA700 ≤ c ∧ c ≤ 0xA7FF) ∨ (0xA900 ≤ c ∧ c ≤ 0xA9FF) ∨
          (0xC000 ≤ c ∧ c ≤ 0xCFFF) then some StatusCategory.failure
  else Option.none

/-- Modelled from the spec: the Query/Retrieve Find status registry (spec
section 3 and the C-FIND docstring status table). -/
def QR_FIND_SERVICE_CLASS_STATUS (c : Int) : Option StatusCategory :=
  if c = 0x0000 then some StatusCategory.success
  else if c = 0xFF00 ∨ c = 0xFF01 then some StatusCategory.pending
  else if c = 0xFE00 then some StatusCategory.cancel
  else if c = 0x0122 ∨ c = 0xA700 ∨ c = 0xA900 then some StatusCategory.failure
  else if 0xC000 ≤ c ∧ c ≤ 0xCFFF then some StatusCategory.failure
  else Option.none

/-- Modelled from the spec: the Query/Retrieve Get status registry (spec
section 3 and the C-GET docstring status table). -/
def QR_GET_SERVICE_CLASS_STATUS (c : Int) : Option StatusCategory :=
  if c = 0x0000 then some StatusCategory.success
  else if c = 0xFF00 then some StatusCategory.pending
  else if c = 0xFE00 then some StatusCategory.cancel
  else if c = 0xB000 then some StatusCategory.warning
  else if c = 0x0122 ∨ c = 0x0124 ∨ c = 0x0210 ∨ c = 0x0211 ∨ c = 0x0212 ∨
          c = 0xA701 ∨ c = 0xA702 ∨ c = 0xA900 then some StatusCategory.failure
  else if 0xC000 ≤ c ∧ c ≤ 0xCFFF then some StatusCategory.failure
  else Option.none

/-- Modelled from the spec: the Query/Retrieve Move status registry (the
C-GET set plus 0xA801 move destination unknown, spec sections 3 and 4.J). -/
def QR_MOVE_SERVICE_CLASS_STATUS (c : Int) : Option StatusCategory :=
  if c = 0x0000 then some StatusCategory.success
  else if c = 0xFF00 then some StatusCategory.pending
  else if c = 0xFE00 then some StatusCategory.cancel
  else if c = 0xB000 then some StatusCategory.warning
  else if c = 0x0122 ∨ c = 0x0124 ∨ c = 0x0210 ∨ c = 0x0211 ∨ c = 0x0212 ∨
          c = 0xA701 ∨ c = 0xA702 ∨ c = 0xA801 ∨ c = 0xA900 then
    some StatusCategory.failure
  else if 0xC000 ≤ c ∧ c ≤ 0xCFFF then some StatusCategory.failure
  else Option.none

/-- Modelled from the spec: the Relevant Patient Information Query status
registry (spec section 4.K names 0xC100 and 0xC200; the remaining codes come
from the RelevantPatientInformationQueryServiceClass docstring). -/
def RELEVANT_PATIENT_SERVICE_CLASS_STATUS (c : Int) : Option StatusCategory :=
  if c = 0x0000 then some StatusCategory.success
  else if c = 0xFF00 ∨ c = 0xFF01 then some StatusCategory.pending
  else if c = 0xFE00 then some StatusCategory.cancel
  else if c = 0x0122 ∨ c = 0xA700 ∨ c = 0xA900 ∨ c = 0xC100 ∨ c = 0xC200 then
    some StatusCategory.failure
  else Option.none

/-- Membership test rsp.Status in self.statuses: a Python dict lookup, which
only ever matches when the attribute actually holds an int. -/
def statusLookup (reg : Int → Option StatusCategory) (v : Value) :
    Option StatusCategory :=
  match v with
  | Value.int n => reg n
  | _ => Option.none

/-- ServiceClass.is_valid_status (service_class.py lines 81-97): membership of
a status value in the registry of the current service. -/
def is_valid_status (reg : Int → Option StatusCategory) (v : Value) : Bool :=
  (statusLookup reg v).isSome

/-- ServiceClass.validate_status (service_class.py lines 115-164): normalise a
handler-returned status into the response primitive.  A Dataset with a Status
element has each element whose keyword is an attribute of the primitive copied
across; a Dataset without one yields 0xC001; an int is taken as the status; any
other type yields 0xC002.  The final registry check only logs, so the returned
primitive does not depend on it. -/
def validate_status (supported : List String) (status : PyStatus) (rsp : Rsp) :
    Rsp :=
  match status with
  | PyStatus.ds d =>
    if (d.lookup "Status").isSome then
      d.foldl (fun r kv =>
        if supported.contains kv.1 then setattrV r kv.1 kv.2 else r) rsp
    else
      setattrV rsp "Status" (Value.int 0xC001)
  | PyStatus.int n => setattrV rsp "Status" (Value.int n)
  | _ => setattrV rsp "Status" (Value.int 0xC002)

/-- Outcome of an evt.trigger call: either the handler raised, or it returned
a value of the per-service shape. -/
inductive TriggerOut (α : Type) where
  | exc
  | ok (a : α)

/-- The response primitive as first built by the QR SCPs: message ids and the
affected SOP class UID copied from the request, everything else unset. -/
def init_qr_rsp (reqMID : Int) (uid : String) : Rsp :=
  setattrV (setattrV (setattrV ⟨[]⟩
    "MessageID" (Value.int reqMID))
    "MessageIDBeingRespondedTo" (Value.int reqMID))
    "AffectedSOPClassUID" (Value.str uid)

/-- VerificationServiceClass.SCP (service_class.py lines 193-304).  The
handler status is applied inside a try block: a Dataset without a Status
element and a non-Dataset non-int value both raise, and the except clause
defaults the status to 0x0000, as does a raising trigger.  Exactly one
response is emitted. -/
def echo_scp (reqMID : Int) (uid : String) (trig : TriggerOut PyStatus) :
    List Rsp :=
  let rsp := init_qr_rsp reqMID uid
  let rsp :=
    match trig with
    | TriggerOut.exc => setattrV rsp "Status" (Value.int 0x0000)
    | TriggerOut.ok s =>
      match s with
      | PyStatus.ds d =>
        if (d.lookup "Status").isSome then
          d.foldl (fun r kv =>
            if C_ECHO_KEYWORDS.contains kv.1 then setattrV r kv.1 kv.2 else r)
            rsp
        else
          setattrV rsp "Status" (Value.int 0x0000)
      | PyStatus.int n => setattrV rsp "Status" (Value.int n)
      | _ => setattrV rsp "Status" (Value.int 0x0000)
  [rsp]

/-- QueryRetrieveServiceClass._find_scp response loop (service_class.py lines
625-696).  Each yield is fault-converted to 0xC311, validated, looked up in
the Find registry (unknown: send once and return); Cancel, Failure and
Success are terminal; Pending encodes the yielded identifier (an empty byte
stream is the 0xC312 terminal), emits, resets the Identifier and continues.
A category with no branch (unreachable for the Find registry) just resets the
Identifier and continues, as the Python for body does.  Exhaustion emits a
final 0x0000. -/
def qr_find_loop (enc : PyVal → List Nat) :
    List (PyStatus × PyVal) → Rsp → List Rsp
  | [], rsp => [setattrV rsp "Status" (Value.int 0x0000)]
  | (ys, yd) :: rest, rsp =>
    let ys := if isExcStatus ys then PyStatus.int 0xC311 else ys
    let rsp := validate_status C_FIND_KEYWORDS ys rsp
    match statusLookup QR_FIND_SERVICE_CLASS_STATUS (getattrV rsp "Status") with
    | Option.none => [rsp]
    | some StatusCategory.cancel => [rsp]
    | some StatusCategory.failure => [rsp]
    | some StatusCategory.success => [rsp]
    | some StatusCategory.pending =>
      let b := enc yd
      if b = [] then [setattrV rsp "Status" (Value.int 0xC312)]
      else
        let r := setattrV rsp "Identifier" (Value.bytes b)
        r :: qr_find_loop enc rest (setattrV r "Identifier" Value.none)
    | some StatusCategory.warning =>
      qr_find_loop enc rest (setattrV rsp "Identifier" Value.none)

/-- QueryRetrieveServiceClass._find_scp (service_class.py lines 474-696).
decodeOK models the outcome of decoding the request Identifier through the
codec collaborator; the trigger outcome carries the producer, with
Option.none standing for a handler that returned None (replaced by a single
(0x0000, None) yield). -/
def find_scp (enc : PyVal → List Nat) (reqMID : Int) (uid : String)
    (decodeOK : Bool)
    (trig : TriggerOut (Option (List (PyStatus × PyVal)))) : List Rsp :=
  let rsp := init_qr_rsp reqMID uid
  if !decodeOK then
    [setattrV (setattrV rsp "Status" (Value.int 0xC310))
      "ErrorComment" (Value.str "Unable to decode the dataset")]
  else
    match trig with
    | TriggerOut.exc => [setattrV rsp "Status" (Value.int 0xC311)]
    | TriggerOut.ok h =>
      let yields :=
        match h with
        | Option.none => [(PyStatus.int 0x0000, PyVal.none)]
        | some ys => ys
      qr_find_loop enc yields rsp

/-- The producer handed to the Relevant Patient Information SCP: either the
first next() raised StopIteration or TypeError (no first yield), or there is
a first yield; rest holds any further values, which the source never pulls. -/
structure RPHandlerOut where
  firstYield : Option (PyStatus × PyVal)
  rest : List (PyStatus × PyVal)

/-- RelevantPatientInformationQueryServiceClass.SCP (service_class.py lines
1634-1822).  Only the first yield is consumed: no yield means an immediate
0x0000 Success; a Pending first yield is emitted (empty encoding is the
0xC312 terminal) and immediately followed by a final 0x0000 on the same
primitive, whose Identifier is not cleared; other categories emit once.  The
pending-like category with no branch (unreachable for this registry) emits
nothing, falling off the end of the function. -/
def rpiq_scp (enc : PyVal → List Nat) (reqMID : Int) (uid : String)
    (decodeOK : Bool) (trig : TriggerOut RPHandlerOut) : List Rsp :=
  let rsp := init_qr_rsp reqMID uid
  if !decodeOK then
    [setattrV (setattrV rsp "Status" (Value.int 0xC310))
      "ErrorComment" (Value.str "Unable to decode the dataset")]
  else
    match trig with
    | TriggerOut.exc => [setattrV rsp "Status" (Value.int 0xC311)]
    | TriggerOut.ok h =>
      match h.firstYield with
      | Option.none => [setattrV rsp "Status" (Value.int 0x0000)]
      | some (ys, yd) =>
        let rsp := validate_status C_FIND_KEYWORDS ys rsp
        match statusLookup RELEVANT_PATIENT_SERVICE_CLASS_STATUS
            (getattrV rsp "Status") with
        | Option.none => [rsp]
        | some StatusCategory.cancel => [rsp]
        | some StatusCategory.failure => [rsp]
        | some StatusCategory.success => [rsp]
        | some StatusCategory.pending =>
          let b := enc yd
          if b = [] then [setattrV rsp "Status" (Value.int 0xC312)]
          else
            let r := setattrV rsp "Identifier" (Value.bytes b)
            [r, setattrV r "Status" (Value.int 0x0000)]
        | some StatusCategory.warning => []

/-- The mutable sub-operation tracker of _get_scp and _move_scp: the
store_results list [remaining, failed, warning, completed], the
failed_instances list, and the response primitive the loop keeps mutating. -/
structure QRState where
  remaining : Int
  failed : Int
  warning : Int
  completed : Int
  failedInstances : List Value
  rsp : Rsp

/-- A nested C-STORE sub-operation as invoked by the loop: the zero-based
index of the handler yield that triggered it, the message id passed to
send_c_store, and the dataset sent. -/
structure SubOp where
  idx : Nat
  msgId : Int
  dataset : DS

/-- The observable outcome of a GET or MOVE sub-operation loop: the emitted
responses in order, the nested C-STORE sub-operations in order, and the
tracker state at the point the final (post-loop) response was built, when the
loop ended by exhaustion or break rather than by a terminal return. -/
structure QROut where
  rsps : List Rsp
  subOps : List SubOp
  finalState : Option QRState

/-- The per-service data threaded through the shared GET/MOVE sub-operation
loop: the primitive attribute names, the service status registry, the
service-specific handler-fault status code, the bulk-data stripping applied
to pending datasets (identity for MOVE and for GET outside the
without-bulk-data SOP class), the identifier encoder, the C-STORE
sub-operation outcome oracle indexed by yield index (Option.none models
send_c_store raising), and the request message id. -/
structure QRCfg where
  keywords : List String
  registry : Int → Option StatusCategory
  faultCode : Int
  strip : DS → DS
  enc : PyVal → List Nat
  store : Nat → Option Int
  reqMID : Int

/-- Sub-operation message id derivation (service_class.py lines 1012-1015 and
1444-1447): req.MessageID + ii + 1, reduced by 65535 once when the sum
exceeds 65535. -/
def sub_msg_id (reqMID : Int) (ii : Nat) : Int :=
  let m := reqMID + ii + 1
  if m > 65535 then m - 65535 else m

/-- Translation of a C-STORE sub-operation response through the Storage
registry (service_class.py lines 1017-1027): an exception from send_c_store
(Option.none) or a KeyError on an unknown status both land in the except
clause as a Failure. -/
def store_sub_op_category (resp : Option Int) : StatusCategory :=
  match resp with
  | Option.none => StatusCategory.failure
  | some code =>
    match STORAGE_SERVICE_CLASS_STATUS code with
    | some cat => cat
    | Option.none => StatusCategory.failure

/-- The closure _add_failed_instance (service_class.py lines 864-866 and
1303-1305): append the SOPInstanceUID of a dataset to the failed list when
present. -/
def add_failed_instance (d : DS) (l : List Value) : List Value :=
  match d.lookup "SOPInstanceUID" with
  | some v => l ++ [v]
  | Option.none => l

/-- The synthesised identifier dataset holding the accumulated failed SOP
instance UIDs. -/
def synth_failed_ds (failedInstances : List Value) : DS :=
  [("FailedSOPInstanceUIDList", Value.list failedInstances)]

/-- The identifier dataset attached to Cancel, Failure and Warning terminals:
the yielded dataset when it is a Dataset containing FailedSOPInstanceUIDList,
else the synthesised one (service_class.py lines 905-909 and parallels). -/
def failed_list_ds (yd : PyVal) (failedInstances : List Value) : DS :=
  match yd with
  | PyVal.ds d =>
    if (d.lookup "FailedSOPInstanceUIDList").isSome then d
    else synth_failed_ds failedInstances
  | _ => synth_failed_ds failedInstances

/-- Assign the four sub-operation counter attributes of a response. -/
def set_counters (r : Rsp) (rem fail warn comp : Value) : Rsp :=
  setattrV (setattrV (setattrV (setattrV r
    "NumberOfRemainingSuboperations" rem)
    "NumberOfFailedSuboperations" fail)
    "NumberOfWarningSuboperations" warn)
    "NumberOfCompletedSuboperations" comp

/-- What one iteration of the GET/MOVE loop does: return a terminal response,
break out to the final response, or continue with an optional Pending
emission, an optional sub-operation, and the updated tracker. -/
inductive QRStep where
  | ret (r : Rsp)
  | brk
  | cont (emitted : Option Rsp) (sub : Option SubOp) (st : QRState)

/-- One iteration of the shared C-GET/C-MOVE response loop (service_class.py
lines 870-1049 and 1309-1485).  The exception sentinel becomes the service
fault code; when remaining is already depleted the loop breaks; the status is
validated and an unknown code is a terminal; Cancel reports all four counters
with an identifier; Failure and Warning report remaining as absent and fold
remaining into failed; a mid-stream Success downgrades to 0xB000 when
failures or warnings accumulated; a truthy non-Dataset pending payload counts
as a sub-operation failure with an empty UID and emits a Pending without
decrementing remaining; a Dataset pending payload is stripped, sent by a
nested C-STORE under the derived message id, tallied, and a Pending with the
updated counters is emitted; a falsy pending payload does nothing. -/
def qr_step (cfg : QRCfg) (ii : Nat) (y : PyStatus × PyVal) (st : QRState) :
    QRStep :=
  let ys := if isExcStatus y.1 then PyStatus.int cfg.faultCode else y.1
  if st.remaining ≤ 0 then QRStep.brk
  else
    let rsp := validate_status cfg.keywords ys st.rsp
    match statusLookup cfg.registry (getattrV rsp "Status") with
    | Option.none => QRStep.ret rsp
    | some StatusCategory.cancel =>
      let r := set_counters rsp (Value.int st.remaining) (Value.int st.failed)
        (Value.int st.warning) (Value.int st.completed)
      let r := setattrV r "Identifier"
        (Value.bytes (cfg.enc (PyVal.ds (failed_list_ds y.2 st.failedInstances))))
      QRStep.ret r
    | some StatusCategory.failure =>
      let r := set_counters rsp Value.none (Value.int (st.failed + st.remaining))
        (Value.int st.warning) (Value.int st.completed)
      let r := setattrV r "Identifier"
        (Value.bytes (cfg.enc (PyVal.ds (failed_list_ds y.2 st.failedInstances))))
      QRStep.ret r
    | some StatusCategory.warning =>
      let r := set_counters rsp Value.none (Value.int (st.failed + st.remaining))
        (Value.int st.warning) (Value.int st.completed)
      let r := setattrV r "Identifier"
        (Value.bytes (cfg.enc (PyVal.ds (failed_list_ds y.2 st.failedInstances))))
      QRStep.ret r
    | some StatusCategory.success =>
      let r :=
        if st.failed ≠ 0 ∨ st.warning ≠ 0 then
          setattrV (setattrV rsp "Status" (Value.int 0xB000)) "Identifier"
            (Value.bytes (cfg.enc (PyVal.ds (synth_failed_ds st.failedInstances))))
        else setattrV rsp "Identifier" Value.none
      let r := set_counters r Value.none (Value.int st.failed)
        (Value.int st.warning) (Value.int st.completed)
      QRStep.ret r
    | some StatusCategory.pending =>
      if pyTruthy y.2 then
        match y.2 with
        | PyVal.ds d =>
          let d := cfg.strip d
          let mId := sub_msg_id cfg.reqMID ii
          let cat := store_sub_op_category (cfg.store ii)
          let fail := if cat = StatusCategory.failure then st.failed + 1 else st.failed
          let warn := if cat = StatusCategory.warning then st.warning + 1 else st.warning
          let comp := if cat = StatusCategory.success then st.completed + 1 else st.completed
          let fi :=
            if cat = StatusCategory.failure ∨ cat = StatusCategory.warning then
              add_failed_instance d st.failedInstances
            else st.failedInstances
          let rem := st.remaining - 1
          let r := setattrV rsp "Identifier" Value.none
          let r := set_counters r (Value.int rem) (Value.int fail)
            (Value.int warn) (Value.int comp)
          QRStep.cont (some r) (some ⟨ii, mId, d⟩) ⟨rem, fail, warn, comp, fi, r⟩
        | _ =>
          let fi := st.failedInstances ++ [Value.str ""]
          let r := setattrV rsp "Identifier" Value.none
          let r := set_counters r (Value.int st.remaining)
            (Value.int (st.failed + 1)) (Value.int st.warning)
            (Value.int st.completed)
          QRStep.cont (some r) Option.none
            ⟨st.remaining, st.failed + 1, st.warning, st.completed, fi, r⟩
      else
        QRStep.cont Option.none Option.none { st with rsp := rsp }

/-- The final Success or Warning response sent after the loop ends without a
terminal (service_class.py lines 1051-1074 and 1499-1522): 0x0000 when no
failures or warnings, else 0xB000 with the synthesised failed-UID identifier;
remaining is reported as absent. -/
def qr_final_rsp (enc : PyVal → List Nat) (st : QRState) : Rsp :=
  let r :=
    if st.failed = 0 ∧ st.warning = 0 then
      setattrV st.rsp "Status" (Value.int 0x0000)
    else
      setattrV (setattrV st.rsp "Status" (Value.int 0xB000)) "Identifier"
        (Value.bytes (enc (PyVal.ds (synth_failed_ds st.failedInstances))))
  set_counters r Value.none (Value.int st.failed) (Value.int st.warning)
    (Value.int st.completed)

/-- The shared C-GET/C-MOVE response loop driven over the list of handler
yields, followed by the final response on exhaustion or break. -/
def qr_sub_op_loop (cfg : QRCfg) :
    Nat → List (PyStatus × PyVal) → QRState → QROut
  | _, [], st => ⟨[qr_final_rsp cfg.enc st], [], some st⟩
  | ii, y :: rest, st =>
    match qr_step cfg ii y st with
    | QRStep.ret r => ⟨[r], [], Option.none⟩
    | QRStep.brk => ⟨[qr_final_rsp cfg.enc st], [], some st⟩
    | QRStep.cont em sub st' =>
      let out := qr_sub_op_loop cfg (ii + 1) rest st'
      ⟨em.toList ++ out.rsps, sub.toList ++ out.subOps, out.finalState⟩

/-- The producer handed to _get_scp: the first yield parsed as the
sub-operation count (Option.none when next or int raised), then the
(status, dataset) yields. -/
structure GetHandlerOut where
  noSubOps : Option Int
  yields : List (PyStatus × PyVal)

/-- The UID of Composite Instance Retrieve Without Bulk Data. -/
def CINR_WITHOUT_BULK_UID : String := "1.2.840.10008.5.1.4.1.2.5.3"

/-- The bulk data element keywords stripped by the without-bulk-data GET
(service_class.py lines 413-417). -/
def BULK_DATA_KEYWORDS : List String :=
  ["PixelData", "FloatPixelData", "DoubleFloatPixelData",
   "PixelDataProviderURL", "SpectroscopyData", "OverlayData",
   "CurveData", "AudioSampleData", "EncapsulatedDocument"]

/-- Removal of bulk data elements from a pending dataset (service_class.py
lines 983-997): top-level bulk keywords are deleted, and WaveformData is
deleted from every WaveformSequence item. -/
def stripBulk (d : DS) : DS :=
  (d.filter (fun p => !(BULK_DATA_KEYWORDS.contains p.1))).map (fun p =>
    if p.1 = "WaveformSequence" then
      (p.1,
        match p.2 with
        | Value.items l =>
          Value.items (l.map (fun item =>
            item.filter (fun q => !(q.1 == "WaveformData"))))
        | v => v)
    else p)

/-- The per-yield dataset transformation of _get_scp: bulk stripping only for
the without-bulk-data SOP class (service_class.py line 983). -/
def get_strip (abstractSyntax : String) : DS → DS :=
  fun d => if abstractSyntax = CINR_WITHOUT_BULK_UID then stripBulk d else d

/-- QueryRetrieveServiceClass._get_scp (service_class.py lines 698-1074): a
raising trigger is the 0xC411 terminal; a missing or unparseable
sub-operation count is the 0xC413 terminal; otherwise the tracker starts at
[no_suboperations, 0, 0, 0] and the shared loop runs. -/
def get_scp (abstractSyntax : String) (enc : PyVal → List Nat)
    (store : Nat → Option Int) (reqMID : Int) (uid : String)
    (trig : TriggerOut GetHandlerOut) : QROut :=
  let rsp := init_qr_rsp reqMID uid
  match trig with
  | TriggerOut.exc =>
    ⟨[setattrV rsp "Status" (Value.int 0xC411)], [], Option.none⟩
  | TriggerOut.ok h =>
    match h.noSubOps with
    | Option.none =>
      ⟨[setattrV rsp "Status" (Value.int 0xC413)], [], Option.none⟩
    | some n =>
      qr_sub_op_loop
        ⟨C_GET_KEYWORDS, QR_GET_SERVICE_CLASS_STATUS, 0xC411,
          get_strip abstractSyntax, enc, store, reqMID⟩
        0 h.yields ⟨n, 0, 0, 0, [], rsp⟩

/-- The outcome of the destination checks of _move_scp (service_class.py
lines 1272-1295), folding together the membership test None in destination
and the ae.associate call on the destination pair: the membership test
raised; the destination contains None; associate raised; or associate
returned an association that is or is not established. -/
inductive DestOutcome where
  | checkRaises
  | containsNone
  | assocRaises
  | assocOk (established : Bool)

/-- The producer handed to _move_scp: the first two yields (Option.none when
either next raised), where the sub-operation count is Option.none when int
raised, then the (status, dataset) yields. -/
structure MoveHandlerOut where
  firstTwo : Option (DestOutcome × Option Int)
  yields : List (PyStatus × PyVal)

/-- The observable outcome of _move_scp: the GET/MOVE loop observables plus
whether ae.associate was invoked and whether the outbound transport socket
was explicitly closed. -/
structure MoveOut where
  rsps : List Rsp
  subOps : List SubOp
  finalState : Option QRState
  associated : Bool
  socketClosed : Bool

/-- QueryRetrieveServiceClass._move_scp (service_class.py lines 1076-1522):
identifier decode failure is the 0xC510 terminal with an error comment; a
raising trigger is 0xC511; a failing prologue is 0xC514; an unparseable
sub-operation count is 0xC513; a destination containing None is 0xA801
before associate is attempted; a raising membership test or associate call is
0xC515; a not-established association is 0xA801 with the socket explicitly
closed; otherwise the shared loop runs on the outbound association. -/
def move_scp (enc : PyVal → List Nat) (store : Nat → Option Int)
    (reqMID : Int) (uid : String) (decodeOK : Bool)
    (trig : TriggerOut MoveHandlerOut) : MoveOut :=
  let rsp := init_qr_rsp reqMID uid
  if !decodeOK then
    ⟨[setattrV (setattrV rsp "Status" (Value.int 0xC510))
        "ErrorComment" (Value.str "Unable to decode the dataset")],
      [], Option.none, false, false⟩
  else
    match trig with
    | TriggerOut.exc =>
      ⟨[setattrV rsp "Status" (Value.int 0xC511)], [], Option.none, false, false⟩
    | TriggerOut.ok h =>
      match h.firstTwo with
      | Option.none =>
        ⟨[setattrV rsp "Status" (Value.int 0xC514)], [], Option.none, false, false⟩
      | some (dest, nOpt) =>
        match nOpt with
        | Option.none =>
          ⟨[setattrV rsp "Status" (Value.int 0xC513)], [], Option.none, false, false⟩
        | some n =>
          match dest with
          | DestOutcome.checkRaises =>
            ⟨[setattrV rsp "Status" (Value.int 0xC515)], [], Option.none,
              false, false⟩
          | DestOutcome.containsNone =>
            ⟨[setattrV rsp "Status" (Value.int 0xA801)], [], Option.none,
              false, false⟩
          | DestOutcome.assocRaises =>
            ⟨[setattrV rsp "Status" (Value.int 0xC515)], [], Option.none,
              true, false⟩
          | DestOutcome.assocOk established =>
            if established then
              let out := qr_sub_op_loop
                ⟨C_MOVE_KEYWORDS, QR_MOVE_SERVICE_CLASS_STATUS, 0xC511,
                  id, enc, store, reqMID⟩
                0 h.yields ⟨n, 0, 0, 0, [], rsp⟩
              ⟨out.rsps, out.subOps, out.finalState, true, false⟩
            else
              ⟨[setattrV rsp "Status" (Value.int 0xA801)], [], Option.none,
                true, true⟩

/-- A sample identifier encoder used to instantiate witness runs: a Dataset
encodes to a nonempty byte stream, anything else to the empty stream. -/
def sampleEnc : PyVal → List Nat
  | PyVal.ds d => List.replicate (d.length + 1) 7
  | _ => []

/-- A sample C-STORE sub-operation oracle: every sub-operation succeeds. -/
def sampleStore : Nat → Option Int := fun _ => some 0

/-- The GET loop configuration used to instantiate witness runs. -/
def sampleGetCfg : QRCfg :=
  ⟨C_GET_KEYWORDS, QR_GET_SERVICE_CLASS_STATUS, 0xC411, id, sampleEnc,
    sampleStore, 7⟩

/-- The status code of a handler status when it is an int. -/
def pyStatusInt : PyStatus → Option Int
  | PyStatus.int n => some n
  | _ => Option.none

/-- True when an attribute of a response reads as None. -/
def attrIsNone (r : Rsp) (k : String) : Bool :=
  match getattrV r k with
  | Value.none => true
  | _ => false

/-- The status category of a response under a registry. -/
def rspCat (reg : Int → Option StatusCategory) (r : Rsp) :
    Option StatusCategory :=
  statusLookup reg (getattrV r "Status")

/-- The sum of the four sub-operation counter attributes of a response, when
all four hold ints. -/
def counterSum (r : Rsp) : Option Int :=
  match attrInt r "NumberOfRemainingSuboperations",
      attrInt r "NumberOfFailedSuboperations",
      attrInt r "NumberOfWarningSuboperations",
      attrInt r "NumberOfCompletedSuboperations" with
  | some a, some b, some c, some d => some (a + b + c + d)
  | _, _, _, _ => Option.none

/-- The sum of the four tracker counters. -/
def sumSt (st : QRState) : Int :=
  st.remaining + st.failed + st.warning + st.completed

/-- A handler yield whose status is an integer known to the registry, whose
category is not Cancel, and whose dataset is a Dataset or falsy when the
category is Pending: on such yields the GET/MOVE loop conserves the counter
sum. -/
def conservativeYield (reg : Int → Option StatusCategory) :
    PyStatus × PyVal → Bool
  | (PyStatus.int c, yd) =>
    match reg c with
    | some StatusCategory.cancel => false
    | some StatusCategory.pending =>
      (match yd with
       | PyVal.other _ => false
       | _ => true)
    | some _ => true
    | Option.none => false
  | _ => false

/-- A handler yield whose status is an integer categorised Pending by the
registry: a producer made only of these is drained without a terminal. -/
def pendingIntYield (reg : Int → Option StatusCategory) :
    PyStatus × PyVal → Bool
  | (PyStatus.int c, _) => decide (reg c = some StatusCategory.pending)
  | _ => false

theorem getattr_setattr (r : Rsp) (k k2 : String) (v : Value) :
    getattrV (setattrV r k v) k2 = if k == k2 then v else getattrV r k2 := by
  by_cases h : k = k2
  · subst h
    simp [getattrV, setattrV, List.lookup]
  · have h2 : (k2 == k) = false := beq_eq_false_iff_ne.mpr (Ne.symm h)
    have h3 : (k == k2) = false := beq_eq_false_iff_ne.mpr h
    simp [getattrV, setattrV, List.lookup, h2, h3]

theorem getattr_empty (k : String) : getattrV ⟨[]⟩ k = Value.none := rfl

/-- C3 counterexample: a C-ECHO handler returning a Dataset without a Status
element produces a single response with status 0x0000, not the 0xC001 that
rule 4.B.2 would assign. -/
theorem echo_missing_status_counterexample :
    ((echo_scp 7 "1.2.840.10008.1.1"
        (TriggerOut.ok (PyStatus.ds [("ErrorComment", Value.str "oops")]))).map
      (fun r => attrInt r "Status") = [some 0x0000]) ∧ (0x0000 : Int) ≠ 0xC001 := by
  exact ⟨rfl, by decide⟩

/-- C3 (amended): the C-ECHO SCP never invokes the section 4.B validator; a
handler-returned Dataset lacking a Status element raises inside the try block
and the fault path defaults the status to 0x0000 (Success), so the single
emitted response carries status 0x0000. -/
theorem echo_missing_status_defaults_to_success (reqMID : Int) (uid : String)
    (d : DS) (h : (d.lookup "Status").isSome = false) :
    echo_scp reqMID uid (TriggerOut.ok (PyStatus.ds d)) =
      [setattrV (init_qr_rsp reqMID uid) "Status" (Value.int 0x0000)] ∧
    (echo_scp reqMID uid (TriggerOut.ok (PyStatus.ds d))).map
      (fun r => attrInt r "Status") = [some 0x0000] := by
  have hbody : echo_scp reqMID uid (TriggerOut.ok (PyStatus.ds d)) =
      [setattrV (init_qr_rsp reqMID uid) "Status" (Value.int 0x0000)] := by
    unfold echo_scp
    simp [h]
  refine ⟨hbody, ?_⟩
  rw [hbody]
  simp [attrInt, getattr_setattr]

/-- Witness for the amended C3 theorem at a concrete Dataset. -/
theorem echo_missing_status_defaults_to_success_witness :
    (([("PatientName", Value.str "X")] : DS).lookup "Status").isSome = false ∧
    echo_scp 3 "1.2.840.10008.1.1"
        (TriggerOut.ok (PyStatus.ds [("PatientName", Value.str "X")])) =
      [setattrV (init_qr_rsp 3 "1.2.840.10008.1.1") "Status" (Value.int 0x0000)] :=
  ⟨rfl, (echo_missing_status_defaults_to_success 3 "1.2.840.10008.1.1"
    [("PatientName", Value.str "X")] rfl).1⟩

/-- C8: a C-MOVE handler yielding a destination pair containing None gets the
single terminal 0xA801 (Move Destination Unknown) with no identifier, and the
core returns without calling ae.associate and without any sub-operation. -/
theorem move_none_destination_rejected (enc : PyVal → List Nat)
    (store : Nat → Option Int) (reqMID : Int) (uid : String) (n : Int)
    (yields : List (PyStatus × PyVal)) :
    move_scp enc store reqMID uid true
        (TriggerOut.ok ⟨some (DestOutcome.containsNone, some n), yields⟩) =
      ⟨[setattrV (init_qr_rsp reqMID uid) "Status" (Value.int 0xA801)], [],
        Option.none, false, false⟩ ∧
    getattrV (setattrV (init_qr_rsp reqMID uid) "Status" (Value.int 0xA801))
        "Identifier" = Value.none := by
  constructor
  · rfl
  · simp [init_qr_rsp, getattr_setattr, getattr_empty]

/-- C10: a C-MOVE destination on which the None-membership test raises, or on
which the outbound associate call raises, gets the single terminal 0xC515 and
the core returns without running any sub-operation. -/
theorem move_bad_destination_is_c515 (enc : PyVal → List Nat)
    (store : Nat → Option Int) (reqMID : Int) (uid : String) (n : Int)
    (yields : List (PyStatus × PyVal)) :
    (move_scp enc store reqMID uid true
        (TriggerOut.ok ⟨some (DestOutcome.checkRaises, some n), yields⟩) =
      ⟨[setattrV (init_qr_rsp reqMID uid) "Status" (Value.int 0xC515)], [],
        Option.none, false, false⟩) ∧
    (move_scp enc store reqMID uid true
        (TriggerOut.ok ⟨some (DestOutcome.assocRaises, some n), yields⟩) =
      ⟨[setattrV (init_qr_rsp reqMID uid) "Status" (Value.int 0xC515)], [],
        Option.none, true, false⟩) :=
  ⟨rfl, rfl⟩

theorem qr_step_pending_falsy (cfg : QRCfg) (ii : Nat) (s : PyStatus)
    (yd : PyVal) (st : QRState)
    (hrem : 0 < st.remaining)
    (hexc : isExcStatus s = false)
    (hcat : statusLookup cfg.registry
      (getattrV (validate_status cfg.keywords s st.rsp) "Status") =
        some StatusCategory.pending)
    (hfalsy : pyTruthy yd = false) :
    qr_step cfg ii (s, yd) st =
      QRStep.cont Option.none Option.none
        { st with rsp := validate_status cfg.keywords s st.rsp } := by
  have hrem2 : ¬ st.remaining ≤ 0 := not_le.mpr hrem
  unfold qr_step
  simp only [hexc, Bool.false_eq_true, if_false, hrem2, ite_false, hcat, hfalsy]

/-- C9: in the C-GET and C-MOVE loops, a yield whose status validates to the
Pending category but whose dataset is falsy (None or an empty Dataset) emits
no response, performs no sub-operation, changes no counter and no failed
instance, and the loop silently continues with the next yield. -/
theorem qr_pending_falsy_dataset_skipped (cfg : QRCfg) (ii : Nat)
    (s : PyStatus) (yd : PyVal) (rest : List (PyStatus × PyVal)) (st : QRState)
    (hrem : 0 < st.remaining)
    (hexc : isExcStatus s = false)
    (hcat : statusLookup cfg.registry
      (getattrV (validate_status cfg.keywords s st.rsp) "Status") =
        some StatusCategory.pending)
    (hfalsy : pyTruthy yd = false) :
    qr_sub_op_loop cfg ii ((s, yd) :: rest) st =
      qr_sub_op_loop cfg (ii + 1) rest
        { st with rsp := validate_status cfg.keywords s st.rsp } ∧
    ({ st with rsp := validate_status cfg.keywords s st.rsp } : QRState).remaining
        = st.remaining ∧
    ({ st with rsp := validate_status cfg.keywords s st.rsp } : QRState).failed
        = st.failed ∧
    ({ st with rsp := validate_status cfg.keywords s st.rsp } : QRState).warning
        = st.warning ∧
    ({ st with rsp := validate_status cfg.keywords s st.rsp } : QRState).completed
        = st.completed ∧
    ({ st with rsp := validate_status cfg.keywords s st.rsp } : QRState).failedInstances
        = st.failedInstances := by
  refine ⟨?_, rfl, rfl, rfl, rfl, rfl⟩
  have hstep := qr_step_pending_falsy cfg ii s yd st hrem hexc hcat hfalsy
  simp [qr_sub_op_loop, hstep]

/-- Witness for the C9 theorem: a Pending status with a None dataset at a
concrete GET configuration. -/
theorem qr_pending_falsy_dataset_skipped_witness :
    qr_sub_op_loop sampleGetCfg 0
        [(PyStatus.int 0xFF00, PyVal.none)]
        ⟨2, 0, 0, 0, [], init_qr_rsp 7 "1.2"⟩ =
      qr_sub_op_loop sampleGetCfg 1 []
        ⟨2, 0, 0, 0, [],
          validate_status sampleGetCfg.keywords (PyStatus.int 0xFF00)
            (init_qr_rsp 7 "1.2")⟩ :=
  (qr_pending_falsy_dataset_skipped sampleGetCfg 0 (PyStatus.int 0xFF00)
    PyVal.none [] ⟨2, 0, 0, 0, [], init_qr_rsp 7 "1.2"⟩
    (by decide) rfl (by decide) rfl).1

/-- C7: the Relevant Patient Information Query SCP is one-shot: a producer
with no first yield gets a single 0x0000 Success; a Pending first yield whose
identifier encodes to a nonempty stream gets that Pending response followed
immediately by a final 0x0000 Success; and the output never depends on
anything the producer would yield after its first value. -/
theorem rpiq_one_shot (enc : PyVal → List Nat) (reqMID : Int) (uid : String) :
    (∀ rest : List (PyStatus × PyVal),
      rpiq_scp enc reqMID uid true (TriggerOut.ok ⟨Option.none, rest⟩) =
        [setattrV (init_qr_rsp reqMID uid) "Status" (Value.int 0x0000)]) ∧
    (∀ (c : Int) (d : PyVal) (rest : List (PyStatus × PyVal)),
      RELEVANT_PATIENT_SERVICE_CLASS_STATUS c = some StatusCategory.pending →
      enc d ≠ [] →
      (rpiq_scp enc reqMID uid true
          (TriggerOut.ok ⟨some (PyStatus.int c, d), rest⟩)).map
        (fun r => (attrInt r "Status", attrBytes r "Identifier",
          attrInt r "MessageIDBeingRespondedTo")) =
        [(some c, some (enc d), some reqMID),
         (some 0x0000, some (enc d), some reqMID)]) ∧
    (∀ (fy : Option (PyStatus × PyVal)) (rest rest' : List (PyStatus × PyVal)),
      rpiq_scp enc reqMID uid true (TriggerOut.ok ⟨fy, rest⟩) =
        rpiq_scp enc reqMID uid true (TriggerOut.ok ⟨fy, rest'⟩)) := by
  refine ⟨fun rest => rfl, ?_, fun fy rest rest' => rfl⟩
  intro c d rest hcat hne
  have hv : validate_status C_FIND_KEYWORDS (PyStatus.int c)
      (init_qr_rsp reqMID uid) =
      setattrV (init_qr_rsp reqMID uid) "Status" (Value.int c) := rfl
  unfold rpiq_scp
  simp only [Bool.not_true, Bool.false_eq_true, if_false, hv]
  rw [show getattrV (setattrV (init_qr_rsp reqMID uid) "Status" (Value.int c))
      "Status" = Value.int c by simp [getattr_setattr]]
  simp only [statusLookup, hcat]
  rw [if_neg hne]
  simp [attrInt, attrBytes, getattr_setattr, init_qr_rsp]

/-- Witness for the C7 theorem at a concrete pending first yield. -/
theorem rpiq_one_shot_witness :
    RELEVANT_PATIENT_SERVICE_CLASS_STATUS 0xFF00 = some StatusCategory.pending ∧
    sampleEnc (PyVal.ds [("PatientName", Value.str "X")]) ≠ [] ∧
    (rpiq_scp sampleEnc 3 "1.2" true
        (TriggerOut.ok ⟨some (PyStatus.int 0xFF00,
          PyVal.ds [("PatientName", Value.str "X")]), []⟩)).map
      (fun r => (attrInt r "Status", attrBytes r "Identifier",
        attrInt r "MessageIDBeingRespondedTo")) =
      [(some 0xFF00, some [7, 7], some 3), (some 0x0000, some [7, 7], some 3)] :=
  ⟨by decide, by decide,
    (rpiq_one_shot sampleEnc 3 "1.2").2.1 0xFF00
      (PyVal.ds [("PatientName", Value.str "X")]) [] (by decide) (by decide)⟩

theorem foldl_copy_preserves (sup : List String) (d : DS) (r : Rsp)
    (k : String) (h : ∀ kv ∈ d, kv.1 ≠ k) :
    getattrV (d.foldl (fun r kv =>
        if sup.contains kv.1 then setattrV r kv.1 kv.2 else r) r) k =
      getattrV r k := by
  induction d generalizing r with
  | nil => rfl
  | cons kv rest ih =>
    simp only [List.foldl_cons]
    rw [ih _ (fun kv2 h2 => h kv2 (List.mem_cons_of_mem _ h2))]
    by_cases hs : kv.1 ∈ sup
    · have hne : (kv.1 == k) = false :=
        beq_eq_false_iff_ne.mpr (h kv (List.mem_cons_self _ _))
      simp [hs, getattr_setattr, hne]
    · simp [hs]

theorem foldl_copy_getattr (sup : List String) (d : DS) (r : Rsp)
    (k : String) (v : Value) (hmem : (k, v) ∈ d)
    (hsup : sup.contains k = true) (hnodup : (d.map Prod.fst).Nodup) :
    getattrV (d.foldl (fun r kv =>
        if sup.contains kv.1 then setattrV r kv.1 kv.2 else r) r) k = v := by
  have hsup2 : k ∈ sup := by simpa using hsup
  induction d generalizing r with
  | nil => cases hmem
  | cons kv rest ih =>
    have hnodup2 : kv.1 ∉ rest.map Prod.fst ∧ (rest.map Prod.fst).Nodup := by
      rw [List.map_cons, List.nodup_cons] at hnodup
      exact hnodup
    rcases List.mem_cons.mp hmem with heq | hmem2
    · subst heq
      simp only [List.foldl_cons]
      have hrest : ∀ kv2 ∈ rest, kv2.1 ≠ k := by
        intro kv2 h2 hk
        exact hnodup2.1 (List.mem_map.mpr ⟨kv2, h2, hk⟩)
      rw [foldl_copy_preserves sup rest _ k hrest]
      simp [hsup2, getattr_setattr]
    · simp only [List.foldl_cons]
      exact ih _ hmem2 hnodup2.2

/-- C4: the status validator copies every element of a Status-bearing Dataset
whose keyword is an attribute of the response primitive; a Dataset without a
Status element sets status 0xC001; an integer sets the status to itself; any
other type sets 0xC002; and a validated code unknown to the service registry
is still sent, as witnessed by the find loop emitting the validated response
exactly once before returning. -/
theorem validate_status_spec (sup : List String) (rsp : Rsp) :
    (∀ (d : DS) (k : String) (v : Value),
      (d.lookup "Status").isSome = true → (k, v) ∈ d →
      sup.contains k = true → (d.map Prod.fst).Nodup →
      getattrV (validate_status sup (PyStatus.ds d) rsp) k = v) ∧
    (∀ d : DS, (d.lookup "Status").isSome = false →
      getattrV (validate_status sup (PyStatus.ds d) rsp) "Status" =
        Value.int 0xC001) ∧
    (∀ n : Int, getattrV (validate_status sup (PyStatus.int n) rsp) "Status" =
      Value.int n) ∧
    (getattrV (validate_status sup PyStatus.other rsp) "Status" =
      Value.int 0xC002) ∧
    (∀ (enc : PyVal → List Nat) (s : PyStatus) (yd : PyVal)
        (rest : List (PyStatus × PyVal)) (r : Rsp),
      isExcStatus s = false →
      statusLookup QR_FIND_SERVICE_CLASS_STATUS
        (getattrV (validate_status C_FIND_KEYWORDS s r) "Status") = Option.none →
      qr_find_loop enc ((s, yd) :: rest) r =
        [validate_status C_FIND_KEYWORDS s r]) := by
  refine ⟨?_, ?_, ?_, ?_, ?_⟩
  · intro d k v hst hmem hsup hnodup
    unfold validate_status
    simp only [hst, if_true]
    exact foldl_copy_getattr sup d rsp k v hmem hsup hnodup
  · intro d hst
    unfold validate_status
    simp [hst, getattr_setattr]
  · intro n
    simp [validate_status, getattr_setattr]
  · simp [validate_status, getattr_setattr]
  · intro enc s yd rest r hexc hlook
    simp [qr_find_loop, hexc, hlook]

/-- Witness for the C4 theorem: copying a counter element from a
Status-bearing Dataset, the three constant branches, and the find loop
sending an unknown validated status exactly once. -/
theorem validate_status_spec_witness :
    getattrV (validate_status C_GET_KEYWORDS
        (PyStatus.ds [("Status", Value.int 0xFF00),
          ("NumberOfRemainingSuboperations", Value.int 5)])
        (init_qr_rsp 7 "1.2")) "NumberOfRemainingSuboperations" = Value.int 5 ∧
    getattrV (validate_status C_GET_KEYWORDS
        (PyStatus.ds [("PatientName", Value.str "X")])
        (init_qr_rsp 7 "1.2")) "Status" = Value.int 0xC001 ∧
    getattrV (validate_status C_GET_KEYWORDS (PyStatus.int 0xAB01)
        (init_qr_rsp 7 "1.2")) "Status" = Value.int 0xAB01 ∧
    getattrV (validate_status C_GET_KEYWORDS PyStatus.other
        (init_qr_rsp 7 "1.2")) "Status" = Value.int 0xC002 ∧
    qr_find_loop sampleEnc [(PyStatus.int 0x1234, PyVal.none)]
        (init_qr_rsp 7 "1.2") =
      [validate_status C_FIND_KEYWORDS (PyStatus.int 0x1234)
        (init_qr_rsp 7 "1.2")] := by
  have h := validate_status_spec C_GET_KEYWORDS (init_qr_rsp 7 "1.2")
  refine ⟨?_, ?_, h.2.2.1 0xAB01, h.2.2.2.1, ?_⟩
  · exact h.1 [("Status", Value.int 0xFF00),
      ("NumberOfRemainingSuboperations", Value.int 5)]
      "NumberOfRemainingSuboperations" (Value.int 5) rfl
      (List.Mem.tail _ (List.Mem.head _)) (by decide) (by decide)
  · exact h.2.1 [("PatientName", Value.str "X")] rfl
  · exact (validate_status_spec C_GET_KEYWORDS (init_qr_rsp 7 "1.2")).2.2.2.2
      sampleEnc (PyStatus.int 0x1234) PyVal.none [] (init_qr_rsp 7 "1.2")
      rfl (by decide)

theorem qr_step_cont_sub (cfg : QRCfg) (ii : Nat) (y : PyStatus × PyVal)
    (st : QRState) (em : Option Rsp) (sub : Option SubOp) (st2 : QRState)
    (h : qr_step cfg ii y st = QRStep.cont em sub st2) :
    sub = Option.none ∨
      ∃ d : DS, sub = some ⟨ii, sub_msg_id cfg.reqMID ii, d⟩ := by
  unfold qr_step at h
  simp only [] at h
  split at h
  · exact QRStep.noConfusion h
  · split at h
    · exact QRStep.noConfusion h
    · exact QRStep.noConfusion h
    · exact QRStep.noConfusion h
    · exact QRStep.noConfusion h
    · exact QRStep.noConfusion h
    · split at h
      · split at h
        · simp only [QRStep.cont.injEq] at h
          exact Or.inr ⟨_, h.2.1.symm⟩
        · simp only [QRStep.cont.injEq] at h
          exact Or.inl h.2.1.symm
      · simp only [QRStep.cont.injEq] at h
        exact Or.inl h.2.1.symm

theorem qr_loop_subops (cfg : QRCfg) (yields : List (PyStatus × PyVal)) :
    ∀ (ii : Nat) (st : QRState),
    ∀ s ∈ (qr_sub_op_loop cfg ii yields st).subOps,
      s.msgId = sub_msg_id cfg.reqMID s.idx ∧ ii ≤ s.idx ∧
        s.idx < ii + yields.length := by
  induction yields with
  | nil =>
    intro ii st s hs
    simp [qr_sub_op_loop] at hs
  | cons y rest ih =>
    intro ii st s hs
    rw [qr_sub_op_loop] at hs
    cases hstep : qr_step cfg ii y st with
    | ret r =>
      rw [hstep] at hs
      simp at hs
    | brk =>
      rw [hstep] at hs
      simp at hs
    | cont em sub st2 =>
      rw [hstep] at hs
      simp only [List.mem_append] at hs
      rcases hs with h1 | h2
      · rcases qr_step_cont_sub cfg ii y st em sub st2 hstep with hn | ⟨d, hd⟩
        · rw [hn] at h1
          simp [Option.toList] at h1
        · rw [hd] at h1
          simp [Option.toList] at h1
          subst h1
          refine ⟨rfl, le_refl ii, ?_⟩
          simp only [List.length_cons]
          omega
      · obtain ⟨hm, hle, hlt⟩ := ih (ii + 1) st2 s h2
        refine ⟨hm, by omega, ?_⟩
        simp only [List.length_cons]
        omega

theorem sub_msg_id_bounds (mid : Int) (i : Nat) (h0 : 0 ≤ mid)
    (h1 : mid ≤ 65535) (h2 : (i : Int) ≤ 65534) :
    1 ≤ sub_msg_id mid i ∧ sub_msg_id mid i ≤ 65535 := by
  simp only [sub_msg_id]
  split <;> omega

/-- C1 counterexample: with request message id 65535 the first sub-operation
is invoked with message id 1, whereas ((65535 + 0 + 1) mod 65536) is 0; the
code reduces by 65535 once instead of taking the remainder modulo 65536. -/
theorem sub_op_msg_id_counterexample :
    ((get_scp "" sampleEnc sampleStore 65535 ""
        (TriggerOut.ok ⟨some 1, [(PyStatus.int 0xFF00,
          PyVal.ds [("SOPInstanceUID", Value.str "A")])]⟩)).subOps.map
      (fun s => s.msgId) = [1]) ∧
    ((65535 + 0 + 1 : Int) % 65536 = 0) ∧ (1 : Int) ≠ 0 := by
  exact ⟨rfl, by decide, by decide⟩

/-- C1 (amended): the sub-operation message id equals
request.message_id + ii + 1 reduced by 65535 once when the sum exceeds
65535, where ii is the zero-based index of the yield among all handler
(status, dataset) yields; for a uint16 request message id and at most 65535
yields every sub-operation message id lies in [1, 65535], hence is a uint16,
though it differs from ((message_id + ii + 1) mod 65536) whenever the
reduction fires. -/
theorem sub_op_msg_id_wraps (ax : String) (enc : PyVal → List Nat)
    (store : Nat → Option Int) (mid : Int) (uid : String)
    (hm0 : 0 ≤ mid) (hm1 : mid ≤ 65535) :
    (∀ h : GetHandlerOut, h.yields.length ≤ 65535 →
      ∀ s ∈ (get_scp ax enc store mid uid (TriggerOut.ok h)).subOps,
        s.msgId = sub_msg_id mid s.idx ∧ 1 ≤ s.msgId ∧ s.msgId ≤ 65535) ∧
    (∀ (h : MoveHandlerOut) (decodeOK : Bool), h.yields.length ≤ 65535 →
      ∀ s ∈ (move_scp enc store mid uid decodeOK (TriggerOut.ok h)).subOps,
        s.msgId = sub_msg_id mid s.idx ∧ 1 ≤ s.msgId ∧ s.msgId ≤ 65535) := by
  constructor
  · intro h hlen s hs
    cases hn : h.noSubOps with
    | none =>
      rw [get_scp, hn] at hs
      simp at hs
    | some n =>
      rw [get_scp, hn] at hs
      obtain ⟨hm, hle, hlt⟩ := qr_loop_subops _ h.yields 0 _ s hs
      have hb := sub_msg_id_bounds mid s.idx hm0 hm1 (by omega)
      exact ⟨hm, hm ▸ hb.1, hm ▸ hb.2⟩
  · intro h decodeOK hlen s hs
    by_cases hdec : decodeOK
    · subst hdec
      cases hft : h.firstTwo with
      | none =>
        rw [move_scp, hft] at hs
        simp at hs
      | some p =>
        obtain ⟨dest, nOpt⟩ := p
        cases hn : nOpt with
        | none =>
          rw [move_scp, hft, hn] at hs
          simp at hs
        | some n =>
          cases dest with
          | checkRaises =>
            rw [move_scp, hft, hn] at hs
            simp at hs
          | containsNone =>
            rw [move_scp, hft, hn] at hs
            simp at hs
          | assocRaises =>
            rw [move_scp, hft, hn] at hs
            simp at hs
          | assocOk established =>
            rw [move_scp, hft, hn] at hs
            by_cases hest : established
            · subst hest
              simp only [if_true] at hs
              obtain ⟨hm, hle, hlt⟩ := qr_loop_subops _ h.yields 0 _ s hs
              have hb := sub_msg_id_bounds mid s.idx hm0 hm1 (by omega)
              exact ⟨hm, hm ▸ hb.1, hm ▸ hb.2⟩
            · simp only [hest, if_false] at hs
              simp at hs
    · simp only [Bool.not_eq_true] at hdec
      subst hdec
      rw [move_scp] at hs
      simp at hs

/-- Witness for the amended C1 theorem: a GET run over three pending yields
at request message id 65534, whose sub-operations get message ids 65535, 1
and 2. -/
theorem sub_op_msg_id_wraps_witness :
    (0 : Int) ≤ 65534 ∧ (65534 : Int) ≤ 65535 ∧
    ([(PyStatus.int 0xFF00, PyVal.ds [("SOPInstanceUID", Value.str "A")]),
      (PyStatus.int 0xFF00, PyVal.ds [("SOPInstanceUID", Value.str "B")]),
      (PyStatus.int 0xFF00, PyVal.ds [("SOPInstanceUID", Value.str "C")])] :
        List (PyStatus × PyVal)).length ≤ 65535 ∧
    (∀ s ∈ (get_scp "" sampleEnc sampleStore 65534 ""
        (TriggerOut.ok ⟨some 3,
          [(PyStatus.int 0xFF00, PyVal.ds [("SOPInstanceUID", Value.str "A")]),
           (PyStatus.int 0xFF00, PyVal.ds [("SOPInstanceUID", Value.str "B")]),
           (PyStatus.int 0xFF00, PyVal.ds [("SOPInstanceUID", Value.str "C")])]⟩)).subOps,
      s.msgId = sub_msg_id 65534 s.idx ∧ 1 ≤ s.msgId ∧ s.msgId ≤ 65535) :=
  ⟨by decide, by decide, by decide,
    (sub_op_msg_id_wraps "" sampleEnc sampleStore 65534 ""
      (by decide) (by decide)).1 _ (by decide)⟩

theorem qr_find_loop_all_pending (enc : PyVal → List Nat) (mid : Int)
    (yields : List (PyStatus × PyVal)) :
    ∀ rsp : Rsp,
    (∀ y ∈ yields, ∃ c : Int, y.1 = PyStatus.int c ∧
      QR_FIND_SERVICE_CLASS_STATUS c = some StatusCategory.pending ∧
      enc y.2 ≠ []) →
    getattrV rsp "MessageIDBeingRespondedTo" = Value.int mid →
    getattrV rsp "Identifier" = Value.none →
    (qr_find_loop enc yields rsp).map
      (fun r => (attrInt r "Status", attrBytes r "Identifier",
        attrIsNone r "Identifier", attrInt r "MessageIDBeingRespondedTo")) =
      yields.map (fun y => (pyStatusInt y.1, some (enc y.2), false,
        some mid)) ++ [(some 0, Option.none, true, some mid)] := by
  induction yields with
  | nil =>
    intro rsp hy hmid hid
    simp [qr_find_loop, attrInt, attrBytes, attrIsNone, getattr_setattr,
      hmid, hid]
  | cons y rest ih =>
    intro rsp hy hmid hid
    obtain ⟨c, hc, hcat, hne⟩ := hy y (List.mem_cons_self _ _)
    obtain ⟨s, yd⟩ := y
    simp only at hc
    subst hc
    rw [qr_find_loop]
    have hv : validate_status C_FIND_KEYWORDS (PyStatus.int c) rsp =
        setattrV rsp "Status" (Value.int c) := rfl
    simp only [isExcStatus, Bool.false_eq_true, if_false, hv]
    rw [show getattrV (setattrV rsp "Status" (Value.int c)) "Status" =
      Value.int c by simp [getattr_setattr]]
    simp only [statusLookup, hcat]
    rw [if_neg hne]
    simp only [List.map_cons, List.cons_append, List.cons.injEq]
    constructor
    · simp [attrInt, attrBytes, attrIsNone, getattr_setattr, hmid,
        pyStatusInt]
    · rw [ih _ (fun y2 h2 => hy y2 (List.mem_cons_of_mem _ h2))]
      · simp [getattr_setattr, hmid]
      · simp [getattr_setattr]

/-- C6: a C-FIND handler that yields only Pending (status, identifier) pairs
whose identifiers encode to nonempty streams gets one Pending response per
yield in yield order, each carrying the encoded identifier of that yield,
followed by exactly one terminal 0x0000 response with no identifier, and
every response has MessageIDBeingRespondedTo equal to the request message
id. -/
theorem find_streaming (enc : PyVal → List Nat) (mid : Int) (uid : String)
    (yields : List (PyStatus × PyVal))
    (hy : ∀ y ∈ yields, ∃ c : Int, y.1 = PyStatus.int c ∧
      QR_FIND_SERVICE_CLASS_STATUS c = some StatusCategory.pending ∧
      enc y.2 ≠ []) :
    (find_scp enc mid uid true (TriggerOut.ok (some yields))).map
      (fun r => (attrInt r "Status", attrBytes r "Identifier",
        attrIsNone r "Identifier", attrInt r "MessageIDBeingRespondedTo")) =
      yields.map (fun y => (pyStatusInt y.1, some (enc y.2), false,
        some mid)) ++ [(some 0, Option.none, true, some mid)] := by
  have h1 : find_scp enc mid uid true (TriggerOut.ok (some yields)) =
      qr_find_loop enc yields (init_qr_rsp mid uid) := rfl
  rw [h1]
  exact qr_find_loop_all_pending enc mid yields _ hy
    (by simp [init_qr_rsp, getattr_setattr])
    (by simp [init_qr_rsp, getattr_setattr, getattr_empty])

/-- Witness for the C6 theorem: two pending yields at request message id 7
produce two Pending responses with their encoded identifiers followed by the
final Success. -/
theorem find_streaming_witness :
    (∀ y ∈ ([(PyStatus.int 0xFF00, PyVal.ds [("PatientName", Value.str "a")]),
        (PyStatus.int 0xFF01, PyVal.ds [("PatientName", Value.str "b")])] :
          List (PyStatus × PyVal)),
      ∃ c : Int, y.1 = PyStatus.int c ∧
        QR_FIND_SERVICE_CLASS_STATUS c = some StatusCategory.pending ∧
        sampleEnc y.2 ≠ []) ∧
    (find_scp sampleEnc 7 "1.2" true (TriggerOut.ok (some
        [(PyStatus.int 0xFF00, PyVal.ds [("PatientName", Value.str "a")]),
         (PyStatus.int 0xFF01, PyVal.ds [("PatientName", Value.str "b")])]))).map
      (fun r => (attrInt r "Status", attrBytes r "Identifier",
        attrIsNone r "Identifier", attrInt r "MessageIDBeingRespondedTo")) =
      [(some 0xFF00, some [7, 7], false, some 7),
       (some 0xFF01, some [7, 7], false, some 7),
       (some 0, Option.none, true, some 7)] := by
  have hy : ∀ y ∈ ([(PyStatus.int 0xFF00,
        PyVal.ds [("PatientName", Value.str "a")]),
      (PyStatus.int 0xFF01, PyVal.ds [("PatientName", Value.str "b")])] :
        List (PyStatus × PyVal)),
      ∃ c : Int, y.1 = PyStatus.int c ∧
        QR_FIND_SERVICE_CLASS_STATUS c = some StatusCategory.pending ∧
        sampleEnc y.2 ≠ [] := by
    intro y hmem
    rcases List.mem_cons.mp hmem with h | h
    · subst h
      exact ⟨0xFF00, rfl, by decide, by decide⟩
    · rcases List.mem_cons.mp h with h2 | h2
      · subst h2
        exact ⟨0xFF01, rfl, by decide, by decide⟩
      · exact absurd h2 (List.not_mem_nil y)
  exact ⟨hy, find_streaming sampleEnc 7 "1.2" _ hy⟩

theorem qr_step_pending_int_not_ret (cfg : QRCfg) (ii : Nat) (c : Int)
    (yd : PyVal) (st : QRState)
    (hy : cfg.registry c = some StatusCategory.pending) (r : Rsp) :
    qr_step cfg ii (PyStatus.int c, yd) st ≠ QRStep.ret r := by
  intro h
  unfold qr_step at h
  simp only [isExcStatus, Bool.false_eq_true, if_false] at h
  by_cases hrem : st.remaining ≤ 0
  · rw [if_pos hrem] at h
    exact QRStep.noConfusion h
  · rw [if_neg hrem] at h
    rw [show getattrV (validate_status cfg.keywords (PyStatus.int c) st.rsp)
      "Status" = Value.int c from by
        simp [validate_status, getattr_setattr]] at h
    simp only [statusLookup, hy] at h
    by_cases htr : pyTruthy yd = true
    · rw [if_pos htr] at h
      cases yd with
      | ds d => exact QRStep.noConfusion h
      | other b => exact QRStep.noConfusion h
      | none => simp [pyTruthy] at htr
    · rw [if_neg htr] at h
      exact QRStep.noConfusion h

theorem qr_step_pending_int_cont_id (cfg : QRCfg) (ii : Nat) (c : Int)
    (yd : PyVal) (st : QRState) (em : Option Rsp) (sub : Option SubOp)
    (st2 : QRState) (hid : getattrV st.rsp "Identifier" = Value.none)
    (h : qr_step cfg ii (PyStatus.int c, yd) st = QRStep.cont em sub st2) :
    getattrV st2.rsp "Identifier" = Value.none := by
  unfold qr_step at h
  simp only [isExcStatus, Bool.false_eq_true, if_false] at h
  split at h
  · exact QRStep.noConfusion h
  · split at h
    · exact QRStep.noConfusion h
    · exact QRStep.noConfusion h
    · exact QRStep.noConfusion h
    · exact QRStep.noConfusion h
    · exact QRStep.noConfusion h
    · split at h
      · split at h
        · simp only [QRStep.cont.injEq] at h
          rw [← h.2.2]
          simp [set_counters, getattr_setattr]
        · simp only [QRStep.cont.injEq] at h
          rw [← h.2.2]
          simp [set_counters, getattr_setattr]
      · simp only [QRStep.cont.injEq] at h
        rw [← h.2.2]
        simp [validate_status, getattr_setattr, hid]

theorem qr_loop_all_pending (cfg : QRCfg) (yields : List (PyStatus × PyVal)) :
    ∀ (st : QRState) (ii : Nat),
    (∀ y ∈ yields, pendingIntYield cfg.registry y = true) →
    getattrV st.rsp "Identifier" = Value.none →
    ∃ stE, (qr_sub_op_loop cfg ii yields st).finalState = some stE ∧
      (qr_sub_op_loop cfg ii yields st).rsps.getLast? =
        some (qr_final_rsp cfg.enc stE) ∧
      getattrV stE.rsp "Identifier" = Value.none := by
  induction yields with
  | nil =>
    intro st ii hy hid
    exact ⟨st, rfl, rfl, hid⟩
  | cons y rest ih =>
    intro st ii hy hid
    have hy1 := hy y (List.mem_cons_self _ _)
    obtain ⟨s, yd⟩ := y
    cases s with
    | int c =>
      simp only [pendingIntYield, decide_eq_true_eq] at hy1
      rw [qr_sub_op_loop]
      cases hstep : qr_step cfg ii (PyStatus.int c, yd) st with
      | ret r =>
        exact absurd hstep (qr_step_pending_int_not_ret cfg ii c yd st hy1 r)
      | brk => exact ⟨st, rfl, rfl, hid⟩
      | cont em sub st2 =>
        have hid2 :=
          qr_step_pending_int_cont_id cfg ii c yd st em sub st2 hid hstep
        obtain ⟨stE, h1, h2, h3⟩ :=
          ih st2 (ii + 1) (fun y2 hm => hy y2 (List.mem_cons_of_mem _ hm)) hid2
        refine ⟨stE, h1, ?_, h3⟩
        simp only [List.getLast?_append, h2, Option.or]
    | exc => simp [pendingIntYield] at hy1
    | ds d => simp [pendingIntYield] at hy1
    | other => simp [pendingIntYield] at hy1

theorem qr_final_rsp_remaining (enc : PyVal → List Nat) (st : QRState) :
    getattrV (qr_final_rsp enc st) "NumberOfRemainingSuboperations" =
      Value.none := by
  unfold qr_final_rsp set_counters
  split <;> simp [getattr_setattr]

theorem qr_final_rsp_success (enc : PyVal → List Nat) (st : QRState)
    (h : st.failed = 0 ∧ st.warning = 0) :
    attrInt (qr_final_rsp enc st) "Status" = some 0 ∧
    getattrV (qr_final_rsp enc st) "Identifier" =
      getattrV st.rsp "Identifier" := by
  unfold qr_final_rsp set_counters
  rw [if_pos h]
  simp [attrInt, getattr_setattr]

theorem qr_final_rsp_warning (enc : PyVal → List Nat) (st : QRState)
    (h : ¬(st.failed = 0 ∧ st.warning = 0)) :
    attrInt (qr_final_rsp enc st) "Status" = some 0xB000 ∧
    getattrV (qr_final_rsp enc st) "Identifier" =
      Value.bytes (enc (PyVal.ds (synth_failed_ds st.failedInstances))) := by
  unfold qr_final_rsp set_counters
  rw [if_neg h]
  simp [attrInt, getattr_setattr]

/-- C5: when a C-GET producer is drained without any terminal response (all
yields carry registry-Pending integer statuses), the last emitted response is
the post-loop final response: its remaining count is absent; when no failures
and no warnings accumulated it has status 0x0000 and no identifier; otherwise
it has status 0xB000 and the synthesised FailedSOPInstanceUIDList identifier
built from the accumulated failed-instance UIDs. -/
theorem get_final_response (ax : String) (enc : PyVal → List Nat)
    (store : Nat → Option Int) (mid : Int) (uid : String)
    (h : GetHandlerOut) (n : Int) (hn : h.noSubOps = some n)
    (hp : ∀ y ∈ h.yields,
      pendingIntYield QR_GET_SERVICE_CLASS_STATUS y = true) :
    ∃ stE,
      (get_scp ax enc store mid uid (TriggerOut.ok h)).finalState = some stE ∧
      (get_scp ax enc store mid uid (TriggerOut.ok h)).rsps.getLast? =
        some (qr_final_rsp enc stE) ∧
      getattrV (qr_final_rsp enc stE) "NumberOfRemainingSuboperations" =
        Value.none ∧
      (stE.failed = 0 ∧ stE.warning = 0 →
        attrInt (qr_final_rsp enc stE) "Status" = some 0 ∧
        getattrV (qr_final_rsp enc stE) "Identifier" = Value.none) ∧
      (¬(stE.failed = 0 ∧ stE.warning = 0) →
        attrInt (qr_final_rsp enc stE) "Status" = some 0xB000 ∧
        getattrV (qr_final_rsp enc stE) "Identifier" =
          Value.bytes (enc (PyVal.ds (synth_failed_ds stE.failedInstances)))) := by
  simp only [get_scp, hn]
  obtain ⟨stE, h1, h2, h3⟩ := qr_loop_all_pending
    ⟨C_GET_KEYWORDS, QR_GET_SERVICE_CLASS_STATUS, 0xC411, get_strip ax, enc,
      store, mid⟩
    h.yields ⟨n, 0, 0, 0, [], init_qr_rsp mid uid⟩ 0 hp
    (by simp [init_qr_rsp, getattr_setattr, getattr_empty])
  refine ⟨stE, h1, h2, qr_final_rsp_remaining enc stE, ?_, ?_⟩
  · intro hc
    have hs := qr_final_rsp_success enc stE hc
    exact ⟨hs.1, by rw [hs.2, h3]⟩
  · intro hc
    exact qr_final_rsp_warning enc stE hc

/-- Witness for the C5 theorem: three pending yields with sub-operation
outcomes Success, Warning, Failure leave a final 0xB000 response with the
synthesised failed-UID identifier. -/
theorem get_final_response_witness :
    (⟨some 3,
      [(PyStatus.int 0xFF00, PyVal.ds [("SOPInstanceUID", Value.str "A")]),
       (PyStatus.int 0xFF00, PyVal.ds [("SOPInstanceUID", Value.str "B")]),
       (PyStatus.int 0xFF00, PyVal.ds [("SOPInstanceUID", Value.str "C")])]⟩ :
        GetHandlerOut).noSubOps = some 3 ∧
    (∀ y ∈ (⟨some 3,
      [(PyStatus.int 0xFF00, PyVal.ds [("SOPInstanceUID", Value.str "A")]),
       (PyStatus.int 0xFF00, PyVal.ds [("SOPInstanceUID", Value.str "B")]),
       (PyStatus.int 0xFF00, PyVal.ds [("SOPInstanceUID", Value.str "C")])]⟩ :
        GetHandlerOut).yields,
      pendingIntYield QR_GET_SERVICE_CLASS_STATUS y = true) ∧
    ∃ stE,
      (get_scp "" sampleEnc
          (fun i => if i = 0 then some 0 else
            if i = 1 then some 0xB000 else some 0xA700) 5 ""
          (TriggerOut.ok ⟨some 3,
            [(PyStatus.int 0xFF00, PyVal.ds [("SOPInstanceUID", Value.str "A")]),
             (PyStatus.int 0xFF00, PyVal.ds [("SOPInstanceUID", Value.str "B")]),
             (PyStatus.int 0xFF00,
               PyVal.ds [("SOPInstanceUID", Value.str "C")])]⟩)).finalState =
        some stE ∧
      (get_scp "" sampleEnc
          (fun i => if i = 0 then some 0 else
            if i = 1 then some 0xB000 else some 0xA700) 5 ""
          (TriggerOut.ok ⟨some 3,
            [(PyStatus.int 0xFF00, PyVal.ds [("SOPInstanceUID", Value.str "A")]),
             (PyStatus.int 0xFF00, PyVal.ds [("SOPInstanceUID", Value.str "B")]),
             (PyStatus.int 0xFF00,
               PyVal.ds [("SOPInstanceUID", Value.str "C")])]⟩)).rsps.getLast? =
        some (qr_final_rsp sampleEnc stE) ∧
      getattrV (qr_final_rsp sampleEnc stE) "NumberOfRemainingSuboperations" =
        Value.none ∧
      (stE.failed = 0 ∧ stE.warning = 0 →
        attrInt (qr_final_rsp sampleEnc stE) "Status" = some 0 ∧
        getattrV (qr_final_rsp sampleEnc stE) "Identifier" = Value.none) ∧
      (¬(stE.failed = 0 ∧ stE.warning = 0) →
        attrInt (qr_final_rsp sampleEnc stE) "Status" = some 0xB000 ∧
        getattrV (qr_final_rsp sampleEnc stE) "Identifier" =
          Value.bytes (sampleEnc
            (PyVal.ds (synth_failed_ds stE.failedInstances)))) :=
  ⟨rfl, by decide,
    get_final_response "" sampleEnc
      (fun i => if i = 0 then some 0 else
        if i = 1 then some 0xB000 else some 0xA700) 5 ""
      ⟨some 3,
        [(PyStatus.int 0xFF00, PyVal.ds [("SOPInstanceUID", Value.str "A")]),
         (PyStatus.int 0xFF00, PyVal.ds [("SOPInstanceUID", Value.str "B")]),
         (PyStatus.int 0xFF00, PyVal.ds [("SOPInstanceUID", Value.str "C")])]⟩
      3 rfl (by decide)⟩

theorem conservativeYield_int_eq (reg : Int → Option StatusCategory)
    (c : Int) (yd : PyVal) :
    conservativeYield reg (PyStatus.int c, yd) =
      (match reg c with
       | some StatusCategory.cancel => false
       | some StatusCategory.pending =>
         (match yd with
          | PyVal.other _ => false
          | _ => true)
       | some _ => true
       | Option.none => false) := rfl

theorem conservativeYield_int (reg : Int → Option StatusCategory) (c : Int)
    (yd : PyVal)
    (hy : conservativeYield reg (PyStatus.int c, yd) = true) :
    reg c ≠ Option.none ∧ reg c ≠ some StatusCategory.cancel ∧
    (reg c = some StatusCategory.pending → ∀ b, yd ≠ PyVal.other b) := by
  rw [conservativeYield_int_eq] at hy
  cases hreg : reg c with
  | none =>
    rw [hreg] at hy
    simp at hy
  | some cat =>
    rw [hreg] at hy
    cases cat with
    | cancel => simp at hy
    | pending =>
      refine ⟨by simp, by simp, fun _ b hb => ?_⟩
      subst hb
      simp at hy
    | success => exact ⟨by simp, by simp, fun hp => by simp at hp⟩
    | warning => exact ⟨by simp, by simp, fun hp => by simp at hp⟩
    | failure => exact ⟨by simp, by simp, fun hp => by simp at hp⟩

theorem storage_reg_cases (c : Int) :
    STORAGE_SERVICE_CLASS_STATUS c = Option.none ∨
    STORAGE_SERVICE_CLASS_STATUS c = some StatusCategory.success ∨
    STORAGE_SERVICE_CLASS_STATUS c = some StatusCategory.warning ∨
    STORAGE_SERVICE_CLASS_STATUS c = some StatusCategory.failure := by
  unfold STORAGE_SERVICE_CLASS_STATUS
  split
  · simp
  · split
    · simp
    · split
      · simp
      · split <;> simp

theorem store_sub_op_category_some (c : Int) :
    store_sub_op_category (some c) =
      (match STORAGE_SERVICE_CLASS_STATUS c with
       | some cat => cat
       | Option.none => StatusCategory.failure) := rfl

theorem store_sub_op_cases (o : Option Int) :
    store_sub_op_category o = StatusCategory.success ∨
    store_sub_op_category o = StatusCategory.warning ∨
    store_sub_op_category o = StatusCategory.failure := by
  cases o with
  | none => right; right; rfl
  | some c =>
    rw [store_sub_op_category_some]
    rcases storage_reg_cases c with h | h | h | h <;> rw [h] <;> simp

theorem qr_step_int_ret_props (cfg : QRCfg) (ii : Nat) (c : Int) (yd : PyVal)
    (st : QRState) (r : Rsp)
    (h : qr_step cfg ii (PyStatus.int c, yd) st = QRStep.ret r)
    (hknown : cfg.registry c ≠ Option.none)
    (hcancel : cfg.registry c ≠ some StatusCategory.cancel)
    (hB : cfg.registry 0xB000 = some StatusCategory.warning) :
    rspCat cfg.registry r ≠ some StatusCategory.pending ∧
    getattrV r "NumberOfRemainingSuboperations" = Value.none := by
  unfold qr_step at h
  simp only [isExcStatus, Bool.false_eq_true, if_false] at h
  by_cases hrem : st.remaining ≤ 0
  · rw [if_pos hrem] at h
    exact QRStep.noConfusion h
  · rw [if_neg hrem] at h
    rw [show getattrV (validate_status cfg.keywords (PyStatus.int c) st.rsp)
      "Status" = Value.int c from by
        simp [validate_status, getattr_setattr]] at h
    simp only [statusLookup] at h
    cases hreg : cfg.registry c with
    | none => exact absurd hreg hknown
    | some cat =>
      rw [hreg] at h
      cases cat with
      | cancel => exact absurd hreg hcancel
      | pending =>
        exact absurd h (by
          have := qr_step_pending_int_not_ret cfg ii c yd st hreg r
          intro h2
          apply this
          unfold qr_step
          simp only [isExcStatus, Bool.false_eq_true, if_false]
          rw [if_neg hrem]
          rw [show getattrV (validate_status cfg.keywords (PyStatus.int c)
            st.rsp) "Status" = Value.int c from by
              simp [validate_status, getattr_setattr]]
          simp only [statusLookup, hreg]
          exact h2)
      | failure =>
        simp only [QRStep.ret.injEq] at h
        subst h
        constructor
        · simp [rspCat, statusLookup, set_counters, getattr_setattr,
            validate_status, hreg]
        · simp [set_counters, getattr_setattr]
      | warning =>
        simp only [QRStep.ret.injEq] at h
        subst h
        constructor
        · simp [rspCat, statusLookup, set_counters, getattr_setattr,
            validate_status, hreg]
        · simp [set_counters, getattr_setattr]
      | success =>
        simp only [QRStep.ret.injEq] at h
        subst h
        by_cases hf : st.failed ≠ 0 ∨ st.warning ≠ 0
        · rw [if_pos hf]
          constructor
          · simp [rspCat, statusLookup, set_counters, getattr_setattr, hB]
          · simp [set_counters, getattr_setattr]
        · rw [if_neg hf]
          constructor
          · simp [rspCat, statusLookup, set_counters, getattr_setattr,
              validate_status, hreg]
          · simp [set_counters, getattr_setattr]

theorem qr_step_int_cont_props (cfg : QRCfg) (ii : Nat) (c : Int) (yd : PyVal)
    (st : QRState) (em : Option Rsp) (sub : Option SubOp) (st2 : QRState)
    (h : qr_step cfg ii (PyStatus.int c, yd) st = QRStep.cont em sub st2)
    (hother : cfg.registry c = some StatusCategory.pending →
      ∀ b, yd ≠ PyVal.other b) :
    sumSt st2 = sumSt st ∧
    (∀ r, em = some r →
      rspCat cfg.registry r = some StatusCategory.pending ∧
      counterSum r = some (sumSt st2)) := by
  unfold qr_step at h
  simp only [isExcStatus, Bool.false_eq_true, if_false] at h
  by_cases hrem : st.remaining ≤ 0
  · rw [if_pos hrem] at h
    exact QRStep.noConfusion h
  · rw [if_neg hrem] at h
    rw [show getattrV (validate_status cfg.keywords (PyStatus.int c) st.rsp)
      "Status" = Value.int c from by
        simp [validate_status, getattr_setattr]] at h
    simp only [statusLookup] at h
    cases hreg : cfg.registry c with
    | none =>
      rw [hreg] at h
      exact QRStep.noConfusion h
    | some cat =>
      rw [hreg] at h
      cases cat with
      | cancel => exact QRStep.noConfusion h
      | failure => exact QRStep.noConfusion h
      | warning => exact QRStep.noConfusion h
      | success => exact QRStep.noConfusion h
      | pending =>
        by_cases htr : pyTruthy yd = true
        · rw [if_pos htr] at h
          cases yd with
          | none => simp [pyTruthy] at htr
          | other b => exact absurd rfl (hother hreg b)
          | ds d =>
            simp only [QRStep.cont.injEq] at h
            obtain ⟨hem, hsub, hst⟩ := h
            subst hem
            subst hst
            constructor
            · rcases store_sub_op_cases (cfg.store ii) with hc | hc | hc <;>
                simp [sumSt, hc] <;> ring
            · intro r hr
              simp only [Option.some.injEq] at hr
              subst hr
              constructor
              · simp [rspCat, statusLookup, set_counters, getattr_setattr,
                  validate_status, hreg]
              · simp only [counterSum, attrInt, set_counters,
                  getattr_setattr, sumSt]
                simp
        · rw [if_neg htr] at h
          simp only [QRStep.cont.injEq] at h
          obtain ⟨hem, hsub, hst⟩ := h
          subst hem
          subst hst
          exact ⟨rfl, fun r hr => Option.noConfusion hr⟩

theorem qr_final_rsp_cat (reg : Int → Option StatusCategory)
    (enc : PyVal → List Nat) (st : QRState) :
    rspCat reg (qr_final_rsp enc st) = reg 0 ∨
    rspCat reg (qr_final_rsp enc st) = reg 0xB000 := by
  unfold qr_final_rsp set_counters
  split
  · left
    simp [rspCat, statusLookup, getattr_setattr]
  · right
    simp [rspCat, statusLookup, getattr_setattr]

theorem conservation_clauses_of_nonpending (reg : Int → Option StatusCategory)
    (r : Rsp) (n : Int)
    (hnp : rspCat reg r ≠ some StatusCategory.pending)
    (hrem : getattrV r "NumberOfRemainingSuboperations" = Value.none) :
    (rspCat reg r = some StatusCategory.pending → counterSum r = some n) ∧
    (rspCat reg r ≠ some StatusCategory.pending →
      getattrV r "NumberOfRemainingSuboperations" = Value.none) :=
  ⟨fun hp => absurd hp hnp, fun _ => hrem⟩

theorem qr_loop_conservation (cfg : QRCfg)
    (h0 : cfg.registry 0 = some StatusCategory.success)
    (hB : cfg.registry 0xB000 = some StatusCategory.warning)
    (yields : List (PyStatus × PyVal)) :
    ∀ (ii : Nat) (st : QRState),
    (∀ y ∈ yields, conservativeYield cfg.registry y = true) →
    ∀ r ∈ (qr_sub_op_loop cfg ii yields st).rsps,
      (rspCat cfg.registry r = some StatusCategory.pending →
        counterSum r = some (sumSt st)) ∧
      (rspCat cfg.registry r ≠ some StatusCategory.pending →
        getattrV r "NumberOfRemainingSuboperations" = Value.none) := by
  induction yields with
  | nil =>
    intro ii st hy r hr
    simp only [qr_sub_op_loop, List.mem_singleton] at hr
    subst hr
    have hnp : rspCat cfg.registry (qr_final_rsp cfg.enc st) ≠
        some StatusCategory.pending := by
      rcases qr_final_rsp_cat cfg.registry cfg.enc st with hc | hc <;>
        rw [hc]
      · rw [h0]
        simp
      · rw [hB]
        simp
    exact conservation_clauses_of_nonpending cfg.registry _ _ hnp
      (qr_final_rsp_remaining cfg.enc st)
  | cons y rest ih =>
    intro ii st hy r hr
    have hy1 := hy y (List.mem_cons_self _ _)
    obtain ⟨s, yd⟩ := y
    cases s with
    | exc => simp [conservativeYield] at hy1
    | ds d => simp [conservativeYield] at hy1
    | other => simp [conservativeYield] at hy1
    | int c =>
      obtain ⟨hknown, hcancel, hother⟩ :=
        conservativeYield_int cfg.registry c yd hy1
      rw [qr_sub_op_loop] at hr
      cases hstep : qr_step cfg ii (PyStatus.int c, yd) st with
      | ret r2 =>
        rw [hstep] at hr
        simp only [List.mem_singleton] at hr
        subst hr
        obtain ⟨hnp, hrem⟩ :=
          qr_step_int_ret_props cfg ii c yd st r hstep hknown hcancel hB
        exact conservation_clauses_of_nonpending cfg.registry _ _ hnp hrem
      | brk =>
        rw [hstep] at hr
        simp only [List.mem_singleton] at hr
        subst hr
        have hnp : rspCat cfg.registry (qr_final_rsp cfg.enc st) ≠
            some StatusCategory.pending := by
          rcases qr_final_rsp_cat cfg.registry cfg.enc st with hc | hc <;>
            rw [hc]
          · rw [h0]
            simp
          · rw [hB]
            simp
        exact conservation_clauses_of_nonpending cfg.registry _ _ hnp
          (qr_final_rsp_remaining cfg.enc st)
      | cont em sub st2 =>
        rw [hstep] at hr
        simp only [List.mem_append] at hr
        obtain ⟨hsum, hem⟩ :=
          qr_step_int_cont_props cfg ii c yd st em sub st2 hstep hother
        rcases hr with h1 | h2
        · cases em with
          | none => simp [Option.toList] at h1
          | some r2 =>
            simp only [Option.toList, List.mem_singleton] at h1
            subst h1
            obtain ⟨hcat, hcount⟩ := hem r rfl
            rw [hsum] at hcount
            exact ⟨fun _ => hcount, fun hnp => absurd hcat hnp⟩
        · have hrec := ih (ii + 1) st2
            (fun y2 hm => hy y2 (List.mem_cons_of_mem _ hm)) r h2
          rw [hsum] at hrec
          exact hrec

/-- C2 counterexample: a C-GET run with no_suboperations 1 whose handler
yields a Pending status with a truthy non-Dataset payload emits a Pending
response whose four counters sum to 2, not the initial total 1: the invalid
payload increments failed without decrementing remaining. -/
theorem counter_conservation_counterexample :
    ((get_scp "" sampleEnc sampleStore 7 ""
        (TriggerOut.ok ⟨some 1,
          [(PyStatus.int 0xFF00, PyVal.other true)]⟩)).rsps.map
      (fun r => (rspCat QR_GET_SERVICE_CLASS_STATUS r, counterSum r))).head? =
      some (some StatusCategory.pending, some 2) ∧ (2 : Int) ≠ 1 :=
  ⟨rfl, by decide⟩

/-- C2 (amended): in C-GET and C-MOVE runs whose handler yields integer
statuses known to the registry, never of the Cancel category, and whose
Pending yields carry a Dataset or a falsy payload, every Pending response
carries counters summing to the no_suboperations total and every non-Pending
(terminal) response reports remaining as absent.  Without these provisos the
code violates the claim: a truthy non-Dataset Pending payload inflates the
sum, and a Cancel terminal reports remaining rather than omitting it. -/
theorem counter_conservation_amended :
    (∀ (ax : String) (enc : PyVal → List Nat) (store : Nat → Option Int)
        (mid : Int) (uid : String) (h : GetHandlerOut) (n : Int),
      h.noSubOps = some n →
      (∀ y ∈ h.yields,
        conservativeYield QR_GET_SERVICE_CLASS_STATUS y = true) →
      ∀ r ∈ (get_scp ax enc store mid uid (TriggerOut.ok h)).rsps,
        (rspCat QR_GET_SERVICE_CLASS_STATUS r = some StatusCategory.pending →
          counterSum r = some n) ∧
        (rspCat QR_GET_SERVICE_CLASS_STATUS r ≠ some StatusCategory.pending →
          getattrV r "NumberOfRemainingSuboperations" = Value.none)) ∧
    (∀ (enc : PyVal → List Nat) (store : Nat → Option Int) (mid : Int)
        (uid : String) (h : MoveHandlerOut) (n : Int) (dest : DestOutcome),
      h.firstTwo = some (dest, some n) →
      (∀ y ∈ h.yields,
        conservativeYield QR_MOVE_SERVICE_CLASS_STATUS y = true) →
      ∀ r ∈ (move_scp enc store mid uid true (TriggerOut.ok h)).rsps,
        (rspCat QR_MOVE_SERVICE_CLASS_STATUS r = some StatusCategory.pending →
          counterSum r = some n) ∧
        (rspCat QR_MOVE_SERVICE_CLASS_STATUS r ≠ some StatusCategory.pending →
          getattrV r "NumberOfRemainingSuboperations" = Value.none)) := by
  constructor
  · intro ax enc store mid uid h n hn hy r hr
    simp only [get_scp, hn] at hr
    have hres := qr_loop_conservation
      ⟨C_GET_KEYWORDS, QR_GET_SERVICE_CLASS_STATUS, 0xC411, get_strip ax,
        enc, store, mid⟩
      (show QR_GET_SERVICE_CLASS_STATUS 0 = some StatusCategory.success by
        decide)
      (show QR_GET_SERVICE_CLASS_STATUS 0xB000 = some StatusCategory.warning
        by decide)
      h.yields 0 ⟨n, 0, 0, 0, [], init_qr_rsp mid uid⟩ hy r hr
    rw [show sumSt ⟨n, 0, 0, 0, [], init_qr_rsp mid uid⟩ = n from by
      simp [sumSt]] at hres
    exact hres
  · intro enc store mid uid h n dest hft hy r hr
    obtain ⟨ft, yields⟩ := h
    simp only at hft hy hr
    subst hft
    cases dest with
    | checkRaises =>
      have he : move_scp enc store mid uid true
          (TriggerOut.ok ⟨some (DestOutcome.checkRaises, some n), yields⟩) =
          ⟨[setattrV (init_qr_rsp mid uid) "Status" (Value.int 0xC515)], [],
            Option.none, false, false⟩ := rfl
      rw [he] at hr
      simp at hr
      subst hr
      refine conservation_clauses_of_nonpending _ _ _ ?_ ?_
      · simp only [rspCat, statusLookup, getattr_setattr]
        simp only [beq_self_eq_true, if_true]
        decide
      · simp [init_qr_rsp, getattr_setattr, getattr_empty]
    | containsNone =>
      have he : move_scp enc store mid uid true
          (TriggerOut.ok ⟨some (DestOutcome.containsNone, some n), yields⟩) =
          ⟨[setattrV (init_qr_rsp mid uid) "Status" (Value.int 0xA801)], [],
            Option.none, false, false⟩ := rfl
      rw [he] at hr
      simp at hr
      subst hr
      refine conservation_clauses_of_nonpending _ _ _ ?_ ?_
      · simp only [rspCat, statusLookup, getattr_setattr]
        simp only [beq_self_eq_true, if_true]
        decide
      · simp [init_qr_rsp, getattr_setattr, getattr_empty]
    | assocRaises =>
      have he : move_scp enc store mid uid true
          (TriggerOut.ok ⟨some (DestOutcome.assocRaises, some n), yields⟩) =
          ⟨[setattrV (init_qr_rsp mid uid) "Status" (Value.int 0xC515)], [],
            Option.none, true, false⟩ := rfl
      rw [he] at hr
      simp at hr
      subst hr
      refine conservation_clauses_of_nonpending _ _ _ ?_ ?_
      · simp only [rspCat, statusLookup, getattr_setattr]
        simp only [beq_self_eq_true, if_true]
        decide
      · simp [init_qr_rsp, getattr_setattr, getattr_empty]
    | assocOk established =>
      cases established with
      | true =>
        have he : move_scp enc store mid uid true
            (TriggerOut.ok ⟨some (DestOutcome.assocOk true, some n),
              yields⟩) =
            ⟨(qr_sub_op_loop
                ⟨C_MOVE_KEYWORDS, QR_MOVE_SERVICE_CLASS_STATUS, 0xC511, id,
                  enc, store, mid⟩
                0 yields ⟨n, 0, 0, 0, [], init_qr_rsp mid uid⟩).rsps,
              (qr_sub_op_loop
                ⟨C_MOVE_KEYWORDS, QR_MOVE_SERVICE_CLASS_STATUS, 0xC511, id,
                  enc, store, mid⟩
                0 yields ⟨n, 0, 0, 0, [], init_qr_rsp mid uid⟩).subOps,
              (qr_sub_op_loop
                ⟨C_MOVE_KEYWORDS, QR_MOVE_SERVICE_CLASS_STATUS, 0xC511, id,
                  enc, store, mid⟩
                0 yields ⟨n, 0, 0, 0, [], init_qr_rsp mid uid⟩).finalState,
              true, false⟩ := rfl
        rw [he] at hr
        simp only at hr
        have hres := qr_loop_conservation
          ⟨C_MOVE_KEYWORDS, QR_MOVE_SERVICE_CLASS_STATUS, 0xC511, id, enc,
            store, mid⟩
          (show QR_MOVE_SERVICE_CLASS_STATUS 0 = some StatusCategory.success
            by decide)
          (show QR_MOVE_SERVICE_CLASS_STATUS 0xB000 =
            some StatusCategory.warning by decide)
          yields 0 ⟨n, 0, 0, 0, [], init_qr_rsp mid uid⟩ hy r hr
        rw [show sumSt ⟨n, 0, 0, 0, [], init_qr_rsp mid uid⟩ = n from by
          simp [sumSt]] at hres
        exact hres
      | false =>
        have he : move_scp enc store mid uid true
            (TriggerOut.ok ⟨some (DestOutcome.assocOk false, some n),
              yields⟩) =
            ⟨[setattrV (init_qr_rsp mid uid) "Status" (Value.int 0xA801)],
              [], Option.none, true, true⟩ := rfl
        rw [he] at hr
        simp at hr
        subst hr
        refine conservation_clauses_of_nonpending _ _ _ ?_ ?_
        · simp only [rspCat, statusLookup, getattr_setattr]
          simp only [beq_self_eq_true, if_true]
          decide
        · simp [init_qr_rsp, getattr_setattr, getattr_empty]

/-- Witness for the amended C2 theorem: a two-sub-operation GET run with one
Pending Dataset yield. -/
theorem counter_conservation_amended_witness :
    (⟨some 2, [(PyStatus.int 0xFF00,
        PyVal.ds [("SOPInstanceUID", Value.str "A")])]⟩ :
      GetHandlerOut).noSubOps = some 2 ∧
    (∀ y ∈ (⟨some 2, [(PyStatus.int 0xFF00,
        PyVal.ds [("SOPInstanceUID", Value.str "A")])]⟩ :
      GetHandlerOut).yields,
      conservativeYield QR_GET_SERVICE_CLASS_STATUS y = true) ∧
    (∀ r ∈ (get_scp "" sampleEnc sampleStore 7 ""
        (TriggerOut.ok ⟨some 2, [(PyStatus.int 0xFF00,
          PyVal.ds [("SOPInstanceUID", Value.str "A")])]⟩)).rsps,
      (rspCat QR_GET_SERVICE_CLASS_STATUS r = some StatusCategory.pending →
        counterSum r = some 2) ∧
      (rspCat QR_GET_SERVICE_CLASS_STATUS r ≠ some StatusCategory.pending →
        getattrV r "NumberOfRemainingSuboperations" = Value.none)) :=
  ⟨rfl, by decide,
    counter_conservation_amended.1 "" sampleEnc sampleStore 7 ""
      ⟨some 2, [(PyStatus.int 0xFF00,
        PyVal.ds [("SOPInstanceUID", Value.str "A")])]⟩ 2 rfl (by decide)⟩

end Pynetdicom
